import Mathlib

/-!
Verification of the core data model and behavior engine of a settlement
simulation (entity/component store, citizen AI decision cascade).

The `World` section embeds the TypeScript `World` class (entity/component
store): JavaScript `Map`s are modelled as association lists (insertion
ordered, unique keys by construction), JavaScript `Set`s as duplicate-free
lists, and the `components` field (a `Map<string, Map<EntityId, any>>`) as
an association list keyed by strings.

The `CitizenAI` section embeds the per-entity body of
`CitizenAISystem.update` (the throttled decision cascade) as a pure step
function.  Calls into helper classes that are outside the embedded core
(NavigationHelpers, NeedsHandler, GatherHandler, the festival system) are
modelled as boolean inputs in an `Env` record and boolean output flags in
an `Effects` record; the numeric balance constants live in an `AIConsts`
record because the constants module is not part of the embedded sources.
Integer arithmetic stands in for JavaScript numbers: every claim under
study only compares values against thresholds.
-/

namespace Banished

/-! ## Association-list model of JavaScript `Map` -/

/-- Models `Map.get`: first (unique) entry with the given key, if any. -/
def lookupA {κ α : Type} [DecidableEq κ] : List (κ × α) → κ → Option α
  | [], _ => none
  | (k, v) :: rest, key => if k = key then some v else lookupA rest key

/-- Models `Map.set`: replace in place if the key is present, else append
(JavaScript `Map` preserves insertion order and keeps the original key
slot on overwrite). -/
def setA {κ α : Type} [DecidableEq κ] : List (κ × α) → κ → α → List (κ × α)
  | [], key, val => [(key, val)]
  | (k, v) :: rest, key, val =>
      if k = key then (k, val) :: rest else (k, v) :: setA rest key val

/-- Models `Map.delete`: drop the entry with the given key. -/
def delA {κ α : Type} [DecidableEq κ] (m : List (κ × α)) (key : κ) :
    List (κ × α) :=
  m.filter (fun p => p.1 ≠ key)

/-- Models `Map.has`. -/
def hasA {κ α : Type} [DecidableEq κ] (m : List (κ × α)) (key : κ) : Bool :=
  (lookupA m key).isSome

/-- Models `Set.add`: append if absent. -/
def addS (l : List Nat) (x : Nat) : List Nat :=
  if x ∈ l then l else l ++ [x]

/-- Models `Set.delete`. -/
def delS (l : List Nat) (x : Nat) : List Nat :=
  l.filter (fun y => y ≠ x)

/-! ## The component store (`World` class) -/

/-- The `World` class: `nextId`, the entity `Set`, and the
`Map<string, Map<EntityId, data>>` of component stores.  `δ` is the type
of component data (`any` in the source). -/
structure World (δ : Type) where
  nextId : Nat
  entities : List Nat
  components : List (String × List (Nat × δ))
  deriving DecidableEq

/-- A fresh `World` (field initializers: `nextId = 1`, empty containers). -/
def World.empty {δ : Type} : World δ := ⟨1, [], []⟩

/-- Models `createEntity()`: hand out `nextId`, post-increment, add to the set.
Returns the id with the updated world. -/
def World.createEntity {δ : Type} (w : World δ) : Nat × World δ :=
  (w.nextId, ⟨w.nextId + 1, addS w.entities w.nextId, w.components⟩)

/-- Models `destroyEntity(id)`: delete from the entity set and from every store. -/
def World.destroyEntity {δ : Type} (w : World δ) (id : Nat) : World δ :=
  ⟨w.nextId, delS w.entities id,
    w.components.map (fun ts => (ts.1, delA ts.2 id))⟩

/-- Models `entityExists(id)`. -/
def World.entityExists {δ : Type} (w : World δ) (id : Nat) : Bool :=
  decide (id ∈ w.entities)

/-- Models `addComponent(id, type, data)`: create the per-type store on first
use, then insert or replace. -/
def World.addComponent {δ : Type} (w : World δ) (id : Nat) (t : String)
    (d : δ) : World δ :=
  let comps := if hasA w.components t then w.components else setA w.components t []
  ⟨w.nextId, w.entities,
    setA comps t (setA ((lookupA comps t).getD []) id d)⟩

/-- Models `removeComponent(id, type)`: optional-chained delete — a missing store
is a no-op. -/
def World.removeComponent {δ : Type} (w : World δ) (id : Nat) (t : String) :
    World δ :=
  match lookupA w.components t with
  | none => w
  | some s => ⟨w.nextId, w.entities, setA w.components t (delA s id)⟩

/-- Models `getComponent(id, type)`. -/
def World.getComponent {δ : Type} (w : World δ) (id : Nat) (t : String) :
    Option δ :=
  (lookupA w.components t).bind (fun s => lookupA s id)

/-- Models `hasComponent(id, type)`: `components.get(type)?.has(id) ?? false`. -/
def World.hasComponent {δ : Type} (w : World δ) (id : Nat) (t : String) :
    Bool :=
  match lookupA w.components t with
  | some s => hasA s id
  | none => false

/-- Models `getComponentStore(type)`. -/
def World.getComponentStore {δ : Type} (w : World δ) (t : String) :
    Option (List (Nat × δ)) :=
  lookupA w.components t

/-- Insert a store into a size-sorted list of stores (models the
`sort((a, b) => a.store.size - b.store.size)` step of `query`). -/
def insertBySize {δ : Type} (s : List (Nat × δ)) :
    List (List (Nat × δ)) → List (List (Nat × δ))
  | [] => [s]
  | t :: rest =>
      if s.length ≤ t.length then s :: t :: rest else t :: insertBySize s rest

/-- Sort stores ascending by size. -/
def sortBySize {δ : Type} : List (List (Nat × δ)) → List (List (Nat × δ))
  | [] => []
  | s :: rest => insertBySize s (sortBySize rest)

/-- Models `query(...types)`: all entities present in every listed store.  An
empty type list returns the whole entity set; a missing store short
circuits to `[]`; otherwise the smallest store is iterated and each id is
filtered against all stores. -/
def World.query {δ : Type} (w : World δ) (ts : List String) : List Nat :=
  if ts.isEmpty then w.entities
  else
    let stores := ts.map (fun t => lookupA w.components t)
    if stores.any Option.isNone then []
    else
      match sortBySize (stores.filterMap id) with
      | [] => []
      | s0 :: rest =>
          (s0.map Prod.fst).filter (fun id => (s0 :: rest).all (fun s => hasA s id))

/-- Models `getAllEntities()`. -/
def World.getAllEntities {δ : Type} (w : World δ) : List Nat :=
  w.entities

/-! ## Serialization (claim about `serialize` / `deserialize`)

Component data in the serialization claim's domain: primitives, or plain
records whose field values are primitives, arrays, or `Map`s.  The
serialized form replaces each `Map`-valued field by a
tagged-object/entry-list pair (the source writes an object carrying a
truthy marker field and the entry list), which `deserializeComponentData`
recognises and turns back into a `Map`. -/

/-- JavaScript primitive values (as far as the store's data goes). -/
inductive Prim : Type
  | num (n : Int)
  | str (s : String)
  | boolean (b : Bool)
  | null
  deriving DecidableEq

/-- A field value of a plain-record component: primitive, array, or
`Map` (modelled as its entry list, unique keys when well formed). -/
inductive FieldVal : Type
  | prim (p : Prim)
  | arr (elems : List Prim)
  | fmap (entries : List (Prim × Prim))
  deriving DecidableEq

/-- Component data: a primitive (returned unchanged by the serializer's
`typeof data !== 'object'` early exit) or a plain record. -/
inductive CompData : Type
  | prim (p : Prim)
  | record (fields : List (String × FieldVal))
  deriving DecidableEq

/-- A serialized field value: `Map`s become the tagged entry-list object,
everything else is copied through. -/
inductive SerFieldVal : Type
  | prim (p : Prim)
  | arr (elems : List Prim)
  | mapObj (entries : List (Prim × Prim))
  deriving DecidableEq

/-- Serialized component data. -/
inductive SerCompData : Type
  | prim (p : Prim)
  | record (fields : List (String × SerFieldVal))
  deriving DecidableEq

/-- Per-field step of `serializeComponentData`: `value instanceof Map`
becomes the tagged entry list, other values are copied. -/
def serializeField : FieldVal → SerFieldVal
  | .prim p => .prim p
  | .arr l => .arr l
  | .fmap e => .mapObj e

/-- Models `serializeComponentData`: non-objects pass through; records are
rebuilt field by field. -/
def serializeComponentData : CompData → SerCompData
  | .prim p => .prim p
  | .record fs => .record (fs.map (fun f => (f.1, serializeField f.2)))

/-- Models `new Map(entries)`: set each entry in order into an empty map. -/
def rebuildMapP (e : List (Prim × Prim)) : List (Prim × Prim) :=
  e.foldl (fun m p => setA m p.1 p.2) []

/-- Per-field step of `deserializeComponentData`: a tagged entry-list
object becomes a `Map` again; other values are copied. -/
def deserializeField : SerFieldVal → FieldVal
  | .prim p => .prim p
  | .arr l => .arr l
  | .mapObj e => .fmap (rebuildMapP e)

/-- Models `deserializeComponentData`. -/
def deserializeComponentData : SerCompData → CompData
  | .prim p => .prim p
  | .record fs => .record (fs.map (fun f => (f.1, deserializeField f.2)))

/-- The plain-object snapshot produced by `World.serialize`. -/
structure SerializedWorld where
  nextId : Nat
  entities : List Nat
  components : List (String × List (Nat × SerCompData))
  deriving DecidableEq

/-- A `World` whose component data live in the serialization domain. -/
abbrev WorldC := World CompData

/-- Models `serialize()`: walk every store in order, serializing each datum. -/
def World.serialize (w : WorldC) : SerializedWorld :=
  ⟨w.nextId, w.entities,
    w.components.map (fun ts =>
      (ts.1, ts.2.map (fun p => (p.1, serializeComponentData p.2))))⟩

/-- Models `new Set(data.entities)`. -/
def rebuildSet (l : List Nat) : List Nat :=
  l.foldl addS []

/-- Rebuild one store: `for (const [id, compData] of entries) store.set(id, deserializeComponentData(compData))`. -/
def rebuildStore (entries : List (Nat × SerCompData)) : List (Nat × CompData) :=
  entries.foldl (fun st p => setA st p.1 (deserializeComponentData p.2)) []

/-- Models `deserialize(data)`: overwrite `nextId`, the entity set and every
store from the snapshot (the prior state `w` is fully replaced). -/
def World.deserialize (data : SerializedWorld) (_w : WorldC) : WorldC :=
  ⟨data.nextId, rebuildSet data.entities,
    data.components.map (fun ts => (ts.1, rebuildStore ts.2))⟩

/-- Well-formedness of a field: `Map`-valued fields have duplicate-free
keys (true of every JavaScript `Map`). -/
def wfField : FieldVal → Bool
  | .fmap e => decide (e.map Prod.fst).Nodup
  | _ => true

/-- Well-formedness of component data. -/
def wfData : CompData → Bool
  | .prim _ => true
  | .record fs => fs.all (fun f => wfField f.2)

/-- Well-formedness of a world in the serialization domain: the entity
set and every store have duplicate-free keys (true of every JavaScript
`Set`/`Map`) and all data are well formed. -/
def wfWorld (w : WorldC) : Bool :=
  decide w.entities.Nodup &&
    w.components.all (fun ts =>
      decide (ts.2.map Prod.fst).Nodup && ts.2.all (fun p => wfData p.2))

/-! ## The behavior engine (`CitizenAISystem.update`, per-entity body)

The throttled per-entity decision cascade, embedded as a pure step
function over one agent's component data.  The cascade is modelled up to
the point where control falls through to the priority decision tree
(festival / exhaustion / night / meal / leisure / work branches); the
`Outcome` value records where the cascade stopped.  External helper calls
are inputs (`Env`) or recorded output flags (`Effects`). -/

/-- Balance constants consumed by the cascade.  The constants module is
not among the embedded sources, so they are parameters here; every claim
is settled for all values (or at explicitly chosen concrete values). -/
structure AIConsts where
  interval : Int
  starving : Int
  freezing : Int
  coldRelease : Int
  coldCritical : Int
  stuckThreshold : Int
  energyRecovery : Int
  campfireHappiness : Int
  tavernHappiness : Int
  lonelinessThreshold : Int
  lonelinessPenalty : Int
  deriving DecidableEq

/-- One agent's mutable component data as the cascade reads and writes
it (fields of the `citizen`, `needs` and `movement` components, flat).
Fields the source lazily initializes (or reads through `?? 0`) are
`Option`-typed; `none` is JavaScript `undefined`. -/
structure AgentState where
  chatTimer : Option Int
  napTimer : Option Int
  campfireTimer : Option Int
  tavernTimer : Option Int
  isSleeping : Option Bool
  isChild : Bool
  insideBuildingId : Option Nat
  activity : String
  leisureCampfireSpot : Option Nat
  campfireTimerSet : Option Int
  food : Int
  warmth : Int
  energy : Option Int
  happiness : Int
  lastSocialTick : Option Int
  isColdSheltering : Option Bool
  path : List (Nat × Nat)
  targetEntity : Option Nat
  moving : Bool
  stuckTicks : Option Int
  deriving DecidableEq

/-- The `worker` component, as far as stuck recovery reads it. -/
structure WorkerC where
  workplaceId : Option Nat
  manuallyAssigned : Bool
  deriving DecidableEq

/-- Results of the external collaborator calls the cascade makes, plus
ambient game state, for one cycle. -/
structure Env where
  snapped : Bool
  tick : Int
  isNight : Bool
  urgentWorkNeed : Bool
  offDutyNow : Bool
  insideIsWarmShelter : Bool
  seekWarmthFinds : Bool
  homeId : Option Nat
  deriving DecidableEq

/-- Side effects emitted through external helpers during one cycle. -/
structure Effects where
  soughtFood : Bool
  exitedBuilding : Bool
  forcedWander : Bool
  unassignedWorker : Bool
  deriving DecidableEq

/-- No effects yet. -/
def Effects.start : Effects := ⟨false, false, false, false⟩

/-- Where the cascade stopped for this agent this cycle. -/
inductive Outcome : Type
  | snapped
  | chatting
  | napping
  | storytelling
  | drinking
  | sleeping
  | starving
  | freezing
  | inTransit
  | stuckRecovery
  | childAI
  | noWorker
  | fallthrough
  deriving DecidableEq

/-- The cascade's result for one agent: its state, the effects emitted,
and where it stopped. -/
structure StepResult where
  state : AgentState
  eff : Effects
  outcome : Outcome
  deriving DecidableEq

/-- State threaded between cascade stages. -/
abbrev St := AgentState × Effects

/-- One cascade stage: either stops the cycle for this agent
(`Except.error`, the source's `continue`) or hands on. -/
abbrev Stage := St → Except StepResult St

/-- The lazy field initialization block at the top of the loop body:
`stuckTicks`, `isSleeping`, `energy`, `lastSocialTick`, `chatTimer`
default to `0`, `false`, `100`, `0`, `0` when `undefined`. -/
def initFields (s : AgentState) : AgentState :=
  { s with
    stuckTicks := some (s.stuckTicks.getD 0)
    isSleeping := some (s.isSleeping.getD false)
    energy := some (s.energy.getD 100)
    lastSocialTick := some (s.lastSocialTick.getD 0)
    chatTimer := some (s.chatTimer.getD 0) }

/-- Chatting branch: a positive `chatTimer` is decremented by the
throttle interval (no emergency check); if it stays positive the agent
keeps chatting and the cycle ends. -/
def chatStage (c : AIConsts) (env : Env) : Stage := fun se =>
  let s := se.1
  let chat := s.chatTimer.getD 0
  if chat > 0 then
    let s1 := { s with
      chatTimer := some (chat - c.interval)
      stuckTicks := some 0
      lastSocialTick := some env.tick }
    if chat - c.interval > 0 then
      .error ⟨{ s1 with activity := "chatting" }, se.2, .chatting⟩
    else .ok (s1, se.2)
  else .ok se

/-- Napping branch: emergency (starving or freezing) force-clears the
timer and falls through; otherwise decrement, recover energy, and keep
napping while the timer stays positive. -/
def napStage (c : AIConsts) : Stage := fun se =>
  let s := se.1
  let nap := s.napTimer.getD 0
  if nap > 0 then
    if s.food < c.starving ∨ s.warmth < c.freezing then
      .ok ({ s with napTimer := some 0 }, se.2)
    else
      let s1 := { s with
        napTimer := some (nap - c.interval)
        energy := some (min 100 (s.energy.getD 0 + c.energyRecovery * c.interval))
        stuckTicks := some 0 }
      if nap - c.interval > 0 then
        .error ⟨{ s1 with activity := "napping" }, se.2, .napping⟩
      else .ok (s1, se.2)
  else .ok se

/-- Campfire branch: emergency force-clears the timer and the campfire
bookkeeping fields; otherwise decrement, gain happiness, and keep
storytelling while positive (cleaning up on expiry). -/
def campfireStage (c : AIConsts) : Stage := fun se =>
  let s := se.1
  let cf := s.campfireTimer.getD 0
  if cf > 0 then
    if s.food < c.starving ∨ s.warmth < c.freezing then
      .ok ({ s with
        campfireTimer := some 0
        leisureCampfireSpot := none
        campfireTimerSet := none }, se.2)
    else
      let s1 := { s with
        campfireTimer := some (cf - c.interval)
        happiness := min 100 (s.happiness + c.campfireHappiness * c.interval)
        stuckTicks := some 0 }
      if cf - c.interval > 0 then
        .error ⟨{ s1 with activity := "storytelling" }, se.2, .storytelling⟩
      else
        .ok ({ s1 with leisureCampfireSpot := none, campfireTimerSet := none }, se.2)
  else .ok se

/-- Tavern branch: emergency force-clears the timer; otherwise
decrement, gain happiness, refresh the social clock, and keep drinking
while positive. -/
def tavernStage (c : AIConsts) (env : Env) : Stage := fun se =>
  let s := se.1
  let tv := s.tavernTimer.getD 0
  if tv > 0 then
    if s.food < c.starving ∨ s.warmth < c.freezing then
      .ok ({ s with tavernTimer := some 0 }, se.2)
    else
      let s1 := { s with
        tavernTimer := some (tv - c.interval)
        happiness := min 100 (s.happiness + c.tavernHappiness * c.interval)
        lastSocialTick := some env.tick
        stuckTicks := some 0 }
      if tv - c.interval > 0 then
        .error ⟨{ s1 with activity := "drinking" }, se.2, .drinking⟩
      else .ok (s1, se.2)
  else .ok se

/-- Loneliness: a long gap since the last social contact costs
happiness; never ends the cycle. -/
def lonelinessStage (c : AIConsts) (env : Env) : Stage := fun se =>
  let s := se.1
  if env.tick - s.lastSocialTick.getD 0 > c.lonelinessThreshold then
    .ok ({ s with happiness := max 0 (s.happiness + c.lonelinessPenalty) }, se.2)
  else .ok se

/-- Sleeping branch: a sleeping agent stays put (stuck counter reset)
unless energy is full in daytime, or it is starving — both wake it, exit
any building, and fall through. -/
def sleepStage (c : AIConsts) (env : Env) : Stage := fun se =>
  let s := se.1
  if s.isSleeping.getD false then
    let s1 := { s with stuckTicks := some 0 }
    if s1.energy.getD 0 ≥ 100 ∧ ¬env.isNight then
      .ok ({ s1 with isSleeping := some false, insideBuildingId := none },
        { se.2 with exitedBuilding := true })
    else if s1.food < c.starving then
      .ok ({ s1 with isSleeping := some false, insideBuildingId := none },
        { se.2 with exitedBuilding := true })
    else .error ⟨s1, se.2, .sleeping⟩
  else .ok se

/-- Models `abortCurrentMovement`: clear a non-empty path, drop the target,
stop moving, reset the stuck counter. -/
def abortCurrentMovement (s : AgentState) : AgentState :=
  let s1 := if s.path ≠ [] then { s with path := ([] : List (Nat × Nat)) } else s
  { s1 with targetEntity := none, moving := false, stuckTicks := some 0 }

/-- Starvation branch: mark the activity, abort movement, exit any
building, seek food, end the cycle. -/
def starveStage (c : AIConsts) : Stage := fun se =>
  let s := se.1
  if s.food < c.starving then
    let s1 := abortCurrentMovement { s with activity := "starving" }
    .error ⟨{ s1 with insideBuildingId := none },
      { se.2 with soughtFood := true, exitedBuilding := true }, .starving⟩
  else .ok se

/-- Models `updateColdShelterState`: sticky flag with hysteresis.  An undefined
flag initializes to `false`; a set flag clears only at warmth at or
above the release threshold; a clear flag sets only strictly below the
freezing threshold. -/
def updateColdShelterState (freezing coldRelease : Int)
    (flag : Option Bool) (warmth : Int) : Bool :=
  let f := flag.getD false
  if f then
    if warmth ≥ coldRelease then false else true
  else
    if warmth < freezing then true else false

/-- Cold branch: refresh the hysteresis flag; while sheltering (and not
released for urgent work above the critical threshold) exit any
non-home, non-warm building, and if a warm destination exists, lock
into sheltering for the cycle. -/
def coldStage (c : AIConsts) (env : Env) (worker : Option WorkerC) : Stage :=
  fun se =>
  let s := se.1
  let flag := updateColdShelterState c.freezing c.coldRelease s.isColdSheltering s.warmth
  let s1 := { s with isColdSheltering := some flag }
  let canLeave := worker.isSome ∧ flag ∧ env.urgentWorkNeed ∧ ¬env.offDutyNow
    ∧ s1.warmth ≥ c.coldCritical
  if flag ∧ ¬canLeave then
    let inOtherBuilding : Bool :=
      match s1.insideBuildingId with
      | some b => env.homeId ≠ some b
      | none => false
    let se2 :=
      if inOtherBuilding ∧ ¬env.insideIsWarmShelter then
        ({ s1 with insideBuildingId := none }, { se.2 with exitedBuilding := true })
      else (s1, se.2)
    if env.seekWarmthFinds then
      .error ⟨{ se2.1 with activity := "freezing" }, se2.2, .freezing⟩
    else .ok se2
  else .ok (s1, se.2)

/-- In-transit: a non-empty path means no new decision this cycle; the
stuck counter resets. -/
def transitStage : Stage := fun se =>
  let s := se.1
  if s.path ≠ [] then
    .error ⟨{ s with stuckTicks := some 0 }, se.2, .inTransit⟩
  else .ok se

/-- Entry into the decision phase: default the activity to idle, clear
the inside-building flag, increment the stuck counter. -/
def idleStage : Stage := fun se =>
  let s := se.1
  .ok ({ s with
    activity := "idle"
    insideBuildingId := none
    stuckTicks := some (s.stuckTicks.getD 0 + 1) },
    { se.2 with exitedBuilding := true })

/-- Stuck recovery: over the threshold, unassign the workplace only when
one is assigned and not manually chosen, force a wander, reset the
counter, end the cycle. -/
def stuckStage (c : AIConsts) (worker : Option WorkerC) : Stage := fun se =>
  let s := se.1
  if s.stuckTicks.getD 0 > c.stuckThreshold then
    let unassign :=
      match worker with
      | some w => w.workplaceId.isSome && !w.manuallyAssigned
      | none => false
    .error ⟨{ s with stuckTicks := some 0 },
      { se.2 with forcedWander := true, unassignedWorker := unassign },
      .stuckRecovery⟩
  else .ok se

/-- Tail of the cascade: children get the child AI, agents without a
worker component stop, everyone else falls through to the priority
decision tree (festival / work / leisure branches, outside this model's
cutoff). -/
def tailStage (worker : Option WorkerC) (se : St) : StepResult :=
  if se.1.isChild then ⟨se.1, se.2, .childAI⟩
  else
    match worker with
    | none => ⟨se.1, se.2, .noWorker⟩
    | some _ => ⟨se.1, se.2, .fallthrough⟩

/-- The per-entity body of one throttled `update` cycle: snap check,
lazy field initialization, then the stage cascade in source order. -/
def citizenStep (c : AIConsts) (env : Env) (raw : AgentState)
    (worker : Option WorkerC) : StepResult :=
  if env.snapped then ⟨raw, Effects.start, .snapped⟩
  else
    match
      (((((((((((chatStage c env (initFields raw, Effects.start)).bind
        (napStage c)).bind
        (campfireStage c)).bind
        (tavernStage c env)).bind
        (lonelinessStage c env)).bind
        (sleepStage c env)).bind
        (starveStage c)).bind
        (coldStage c env worker)).bind
        transitStage).bind
        idleStage).bind
        (stuckStage c worker)) with
    | .error r => r
    | .ok st => tailStage worker st

/-! ## Association-list lemmas -/

theorem lookupA_isSome_iff {κ α : Type} [DecidableEq κ] (m : List (κ × α)) (k : κ) :
    (lookupA m k).isSome = true ↔ k ∈ m.map Prod.fst := by
  induction m with
  | nil => simp [lookupA]
  | cons p rest ih =>
      obtain ⟨k0, v0⟩ := p
      by_cases h : k0 = k
      · subst h; simp [lookupA]
      · simp [lookupA, h, ih, Ne.symm h]

theorem hasA_iff {κ α : Type} [DecidableEq κ] (m : List (κ × α)) (k : κ) :
    hasA m k = true ↔ k ∈ m.map Prod.fst :=
  lookupA_isSome_iff m k

theorem lookupA_eq_none_iff {κ α : Type} [DecidableEq κ] (m : List (κ × α)) (k : κ) :
    lookupA m k = none ↔ k ∉ m.map Prod.fst := by
  rw [← lookupA_isSome_iff]
  cases lookupA m k <;> simp

theorem lookupA_mem {κ α : Type} [DecidableEq κ] {m : List (κ × α)} {k : κ} {v : α}
    (h : lookupA m k = some v) : (k, v) ∈ m := by
  induction m with
  | nil => simp [lookupA] at h
  | cons p rest ih =>
      obtain ⟨k0, v0⟩ := p
      by_cases hk : k0 = k
      · subst hk
        simp [lookupA] at h
        subst h; simp
      · simp [lookupA, hk] at h
        exact List.mem_cons_of_mem _ (ih h)

theorem lookupA_delA_self {κ α : Type} [DecidableEq κ] (m : List (κ × α)) (k : κ) :
    lookupA (delA m k) k = none := by
  rw [lookupA_eq_none_iff]
  intro hmem
  obtain ⟨p, hp, hfst⟩ := List.mem_map.mp hmem
  rw [delA, List.mem_filter] at hp
  exact absurd hfst (by simpa using hp.2)

theorem hasA_delA_self {κ α : Type} [DecidableEq κ] (m : List (κ × α)) (k : κ) :
    hasA (delA m k) k = false := by
  simp [hasA, lookupA_delA_self]

theorem lookupA_setA_self {κ α : Type} [DecidableEq κ] (m : List (κ × α)) (k : κ) (v : α) :
    lookupA (setA m k v) k = some v := by
  induction m with
  | nil => simp [setA, lookupA]
  | cons p rest ih =>
      obtain ⟨k0, v0⟩ := p
      by_cases h : k0 = k
      · subst h; simp [setA, lookupA]
      · simp [setA, lookupA, h, ih]

theorem mem_setA {κ α : Type} [DecidableEq κ] {p : κ × α} {m : List (κ × α)} {k : κ} {v : α}
    (h : p ∈ setA m k v) : p ∈ m ∨ p = (k, v) := by
  induction m with
  | nil => simp [setA] at h; simp [h]
  | cons q rest ih =>
      obtain ⟨k0, v0⟩ := q
      by_cases hk : k0 = k
      · subst hk
        simp [setA] at h
        rcases h with h | h
        · right; simp [h]
        · left; simp [h]
      · simp [setA, hk] at h
        rcases h with h | h
        · left; simp [h]
        · rcases ih h with h2 | h2
          · left; simp [h2]
          · right; exact h2

theorem setA_of_not_mem {κ α : Type} [DecidableEq κ] {m : List (κ × α)} {k : κ} (v : α)
    (h : k ∉ m.map Prod.fst) : setA m k v = m ++ [(k, v)] := by
  induction m with
  | nil => simp [setA]
  | cons p rest ih =>
      obtain ⟨k0, v0⟩ := p
      have h1 : k0 ≠ k := fun hk => h (by simp [hk])
      have h2 : k ∉ rest.map Prod.fst := fun hk => h (by simp [hk])
      simp [setA, h1, ih h2]

theorem mem_delA {κ α : Type} [DecidableEq κ] {p : κ × α} {m : List (κ × α)} {k : κ}
    (h : p ∈ delA m k) : p ∈ m ∧ p.1 ≠ k := by
  rw [delA, List.mem_filter] at h
  exact ⟨h.1, by simpa using h.2⟩

theorem delA_idem {κ α : Type} [DecidableEq κ] (m : List (κ × α)) (k : κ) :
    delA (delA m k) k = delA m k := by
  simp [delA, List.filter_filter]

theorem mem_delS {l : List Nat} {x y : Nat} :
    x ∈ delS l y ↔ x ∈ l ∧ x ≠ y := by
  simp [delS]

theorem delS_idem (l : List Nat) (x : Nat) :
    delS (delS l x) x = delS l x := by
  simp [delS, List.filter_filter]

theorem mem_addS_of_mem {l : List Nat} {x y : Nat} (h : x ∈ l) : x ∈ addS l y := by
  unfold addS
  split <;> simp [h]

theorem mem_insertBySize {δ : Type} (x s : List (Nat × δ)) (l : List (List (Nat × δ))) :
    x ∈ insertBySize s l ↔ x = s ∨ x ∈ l := by
  induction l with
  | nil => simp [insertBySize]
  | cons t rest ih =>
      unfold insertBySize
      split
      · simp
      · simp [ih]; tauto

theorem mem_sortBySize {δ : Type} (x : List (Nat × δ)) (l : List (List (Nat × δ))) :
    x ∈ sortBySize l ↔ x ∈ l := by
  induction l with
  | nil => simp [sortBySize]
  | cons s rest ih => simp [sortBySize, mem_insertBySize, ih]

theorem insertBySize_ne_nil {δ : Type} (s : List (Nat × δ)) (l : List (List (Nat × δ))) :
    insertBySize s l ≠ [] := by
  cases l with
  | nil => simp [insertBySize]
  | cons t rest =>
      unfold insertBySize
      split <;> simp

theorem sortBySize_eq_nil_iff {δ : Type} (l : List (List (Nat × δ))) :
    sortBySize l = [] ↔ l = [] := by
  cases l with
  | nil => simp [sortBySize]
  | cons s rest => simp [sortBySize, insertBySize_ne_nil]

/-! ## Query membership -/

theorem mem_query_iff {δ : Type} (w : World δ) (ts : List String) (hts : ts ≠ []) (e : Nat) :
    e ∈ w.query ts ↔ ∀ t ∈ ts, w.hasComponent e t = true := by
  unfold World.query
  rw [if_neg (by simpa using hts)]
  by_cases hmiss : (ts.map fun t => lookupA w.components t).any Option.isNone
  · rw [if_pos hmiss]
    simp only [List.not_mem_nil, false_iff]
    intro hall
    obtain ⟨o, ho, hno⟩ := List.any_eq_true.mp hmiss
    obtain ⟨t, ht, rfl⟩ := List.mem_map.mp ho
    have hc := hall t ht
    unfold World.hasComponent at hc
    cases hlk : lookupA w.components t with
    | none => rw [hlk] at hc; simp at hc
    | some s => rw [hlk] at hno; simp at hno
  · rw [if_neg hmiss]
    have hall : ∀ t ∈ ts, (lookupA w.components t).isSome = true := by
      intro t ht
      by_contra hno
      exact hmiss (List.any_eq_true.mpr
        ⟨lookupA w.components t, List.mem_map.mpr ⟨t, ht, rfl⟩, by
          cases h : lookupA w.components t <;> simp_all⟩)
    cases hsrt : sortBySize ((ts.map fun t => lookupA w.components t).filterMap id) with
    | nil =>
        exfalso
        rw [sortBySize_eq_nil_iff] at hsrt
        cases ts with
        | nil => exact hts rfl
        | cons t0 tr =>
            have h0 := hall t0 (by simp)
            obtain ⟨s0, hs0⟩ := Option.isSome_iff_exists.mp h0
            have hmem : s0 ∈ ((t0 :: tr).map fun t => lookupA w.components t).filterMap id :=
              List.mem_filterMap.mpr ⟨some s0, by simp [hs0], rfl⟩
            rw [hsrt] at hmem
            simp at hmem
    | cons s0 rest =>
        have hsorted : ∀ s, s ∈ s0 :: rest ↔
            ∃ t ∈ ts, lookupA w.components t = some s := by
          intro s
          rw [← hsrt, mem_sortBySize, List.mem_filterMap]
          constructor
          · rintro ⟨o, ho, hid⟩
            simp only [id_eq] at hid
            subst hid
            obtain ⟨t, ht, hto⟩ := List.mem_map.mp ho
            exact ⟨t, ht, hto⟩
          · rintro ⟨t, ht, hlk⟩
            exact ⟨some s, List.mem_map.mpr ⟨t, ht, hlk⟩, rfl⟩
        rw [List.mem_filter]
        constructor
        · rintro ⟨hm, hf⟩
          intro t ht
          obtain ⟨s, hsmem⟩ : ∃ s, lookupA w.components t = some s :=
            Option.isSome_iff_exists.mp (hall t ht)
          unfold World.hasComponent
          rw [hsmem]
          exact (List.all_eq_true.mp hf) s ((hsorted s).mpr ⟨t, ht, hsmem⟩)
        · intro hc
          have hstore : ∀ s ∈ s0 :: rest, hasA s e = true := by
            intro s hs
            obtain ⟨t, ht, hlk⟩ := (hsorted s).mp hs
            have := hc t ht
            unfold World.hasComponent at this
            rwa [hlk] at this
          refine ⟨?_, List.all_eq_true.mpr hstore⟩
          rw [← hasA_iff]
          exact hstore s0 (by simp)

theorem hasComponent_removeComponent_self {δ : Type} (w : World δ) (e : Nat) (t : String) :
    (w.removeComponent e t).hasComponent e t = false := by
  unfold World.removeComponent
  cases hlk : lookupA w.components t with
  | none => unfold World.hasComponent; rw [hlk]
  | some s =>
      unfold World.hasComponent
      simp only
      rw [lookupA_setA_self]
      exact hasA_delA_self s e

/-- Claim C2: with the freezing threshold strictly below the release
threshold, `updateColdShelterState` implements sticky hysteresis: any
warmth below freezing turns the flag on (from any prior flag value);
once on, it stays on across any sequence of calls whose warmth values
all stay below release; it turns off exactly on the first call with
warmth at or above release; and while off it is only turned on by
warmth strictly below freezing. -/
theorem cold_shelter_hysteresis (F R : Int) (hFR : F < R) :
    (∀ (flag : Option Bool) (w : Int), w < F → updateColdShelterState F R flag w = true) ∧
    (∀ ws : List Int, (∀ x ∈ ws, x < R) →
      ws.foldl (fun fl x => updateColdShelterState F R (some fl) x) true = true) ∧
    (∀ w : Int, R ≤ w → updateColdShelterState F R (some true) w = false) ∧
    (∀ w : Int, F ≤ w → updateColdShelterState F R (some false) w = false ∧
      updateColdShelterState F R none w = false) := by
  refine ⟨?_, ?_, ?_, ?_⟩
  · intro flag w hw
    have hne : ¬ w ≥ R := by omega
    unfold updateColdShelterState
    cases flag with
    | none => simp [hw]
    | some b => cases b <;> simp [hw, hne]
  · intro ws hws
    induction ws with
    | nil => rfl
    | cons x rest ih =>
        have hx : updateColdShelterState F R (some true) x = true := by
          have hne : ¬ x ≥ R := by have := hws x (by simp); omega
          unfold updateColdShelterState
          simp [hne]
        simp only [List.foldl_cons, hx]
        exact ih (fun y hy => hws y (List.mem_cons_of_mem x hy))
  · intro w hw
    unfold updateColdShelterState
    simp [show w ≥ R from hw]
  · intro w hw
    have hne : ¬ w < F := by omega
    unfold updateColdShelterState
    constructor <;> simp [hne]

/-- Claim C2 witness: with freezing 20 and release 60, warmth 15 sets
the flag from a cleared (undefined) state. -/
theorem cold_shelter_hysteresis_witness :
    updateColdShelterState 20 60 none 15 = true :=
  (cold_shelter_hysteresis 20 60 (by decide)).1 none 15 (by decide)

/-- Claim C3: for a non-empty type list, `query` contains an entity iff
`hasComponent` holds for every listed type; removing any one of those
components removes the entity from a subsequent identical query. -/
theorem query_contains_iff {δ : Type} (w : World δ) (ts : List String) (e : Nat)
    (hts : ts ≠ []) :
    (e ∈ w.query ts ↔ ∀ t ∈ ts, w.hasComponent e t = true) ∧
    (∀ t ∈ ts, e ∉ (w.removeComponent e t).query ts) := by
  refine ⟨mem_query_iff w ts hts e, ?_⟩
  intro t ht hmem
  have hc := (mem_query_iff (w.removeComponent e t) ts hts e).mp hmem t ht
  rw [hasComponent_removeComponent_self] at hc
  exact absurd hc (by simp)

/-- Claim C3 witness: a two-component world, queried over both types,
at a concrete entity. -/
theorem query_contains_iff_witness :
    (1 ∈ (World.mk 2 [1] [("a", [(1, ())]), ("b", [(1, ())])]).query ["a", "b"] ↔
      ∀ t ∈ ["a", "b"],
        (World.mk 2 [1] [("a", [(1, ())]), ("b", [(1, ())])]).hasComponent 1 t = true) ∧
    (∀ t ∈ ["a", "b"],
      1 ∉ ((World.mk 2 [1] [("a", [(1, ())]), ("b", [(1, ())])]).removeComponent 1 t).query
        ["a", "b"]) :=
  query_contains_iff (World.mk 2 [1] [("a", [(1, ())]), ("b", [(1, ())])]) ["a", "b"] 1
    (by decide)

theorem lookupA_delA_map {δ : Type} (m : List (String × List (Nat × δ))) (e : Nat)
    (t : String) :
    lookupA (m.map (fun ts => (ts.1, delA ts.2 e))) t =
      (lookupA m t).map (fun s => delA s e) := by
  induction m with
  | nil => simp [lookupA]
  | cons p rest ih =>
      obtain ⟨k0, v0⟩ := p
      by_cases h : k0 = t
      · subst h; simp [lookupA]
      · simp [lookupA, h, ih]

theorem hasComponent_destroyEntity_self {δ : Type} (w : World δ) (e : Nat) (t : String) :
    (w.destroyEntity e).hasComponent e t = false := by
  unfold World.destroyEntity World.hasComponent
  simp only
  rw [lookupA_delA_map]
  cases lookupA w.components t with
  | none => rfl
  | some s => simpa using hasA_delA_self s e

/-- Claim C4: after `destroyEntity`, the entity is absent from every
component mapping, absent from every query result (over any type list,
including the empty one), and destroying again is a no-op. -/
theorem destroy_entity_purges {δ : Type} (w : World δ) (e : Nat) :
    (∀ t, (w.destroyEntity e).hasComponent e t = false) ∧
    (∀ ts, e ∉ (w.destroyEntity e).query ts) ∧
    (w.destroyEntity e).destroyEntity e = w.destroyEntity e := by
  refine ⟨fun t => hasComponent_destroyEntity_self w e t, ?_, ?_⟩
  · intro ts
    cases hts : ts with
    | nil =>
        unfold World.query World.destroyEntity
        simp [mem_delS]
    | cons t0 tr =>
        intro hmem
        have hc := (mem_query_iff (w.destroyEntity e) (t0 :: tr) (by simp) e).mp hmem t0
          (by simp)
        rw [hasComponent_destroyEntity_self] at hc
        exact absurd hc (by simp)
  · unfold World.destroyEntity
    simp only [World.mk.injEq, true_and]
    refine ⟨delS_idem _ _, ?_⟩
    rw [List.map_map]
    exact List.map_congr_left (fun ts _ => by simp [Function.comp, delA_idem])

/-- Claim C9: querying a type list containing a type whose store was
never created returns the empty list (the missing store behaves as an
empty mapping; `query` is total, so no error is raised). -/
theorem query_unknown_type_empty {δ : Type} (w : World δ) (ts : List String) (t : String)
    (h1 : t ∈ ts) (h2 : lookupA w.components t = none) :
    w.query ts = [] := by
  unfold World.query
  rw [if_neg (by cases ts <;> simp_all)]
  rw [if_pos (List.any_eq_true.mpr
    ⟨lookupA w.components t, List.mem_map.mpr ⟨t, h1, rfl⟩, by simp [h2]⟩)]

/-- Claim C9 witness: a world with one store, queried with an unknown
second type. -/
theorem query_unknown_type_empty_witness :
    (World.mk 2 [1] [("a", [(1, ())])]).query ["a", "ghost"] = [] :=
  query_unknown_type_empty (World.mk 2 [1] [("a", [(1, ())])]) ["a", "ghost"] "ghost"
    (by decide) (by decide)

/-! ## Claim C5: liveness of component-mapping keys under the store API -/

/-- The four lifecycle calls of the store API. -/
inductive Op (δ : Type) : Type
  | create
  | destroy (id : Nat)
  | addC (id : Nat) (t : String) (d : δ)
  | removeC (id : Nat) (t : String)

/-- Apply one call. -/
def applyOp {δ : Type} (w : World δ) : Op δ → World δ
  | .create => w.createEntity.2
  | .destroy id => w.destroyEntity id
  | .addC id t d => w.addComponent id t d
  | .removeC id t => w.removeComponent id t

/-- Apply a call sequence left to right. -/
def applyOps {δ : Type} (w : World δ) (ops : List (Op δ)) : World δ :=
  ops.foldl applyOp w

/-- Every entity id keyed in any component mapping is in the entity set. -/
def KeysLive {δ : Type} (w : World δ) : Prop :=
  ∀ p ∈ w.components, ∀ q ∈ p.2, q.1 ∈ w.entities

/-- A call is well targeted when `addComponent` is only applied to an id
currently in the entity set (the source performs no such check). -/
def opOK {δ : Type} (w : World δ) : Op δ → Prop
  | .addC id _ _ => id ∈ w.entities
  | _ => True

/-- A call sequence each of whose calls is well targeted in the state it
runs in. -/
inductive GoodSeq {δ : Type} : World δ → List (Op δ) → Prop
  | nil (w : World δ) : GoodSeq w []
  | cons (w : World δ) (o : Op δ) (os : List (Op δ)) :
      opOK w o → GoodSeq (applyOp w o) os → GoodSeq w (o :: os)

theorem keysLive_applyOp {δ : Type} {w : World δ} {o : Op δ}
    (hw : KeysLive w) (ho : opOK w o) : KeysLive (applyOp w o) := by
  cases o with
  | create =>
      intro p hp q hq
      exact mem_addS_of_mem (hw p hp q hq)
  | destroy id =>
      intro p hp q hq
      unfold applyOp World.destroyEntity at hp
      simp only at hp
      obtain ⟨ts, hts, rfl⟩ := List.mem_map.mp hp
      obtain ⟨hq1, hq2⟩ := mem_delA hq
      exact mem_delS.mpr ⟨hw ts hts q hq1, hq2⟩
  | addC id t d =>
      intro p hp q hq
      unfold applyOp World.addComponent at hp
      simp only at hp
      have hmem1 : ∀ r, r ∈ (if hasA w.components t then w.components
          else setA w.components t ([] : List (Nat × δ))) →
          r ∈ w.components ∨ r = (t, ([] : List (Nat × δ))) := by
        intro r hr
        split at hr
        · exact Or.inl hr
        · exact mem_setA hr
      rcases mem_setA hp with hp1 | hp1
      · rcases hmem1 p hp1 with hp2 | hp2
        · exact hw p hp2 q hq
        · subst hp2; simp at hq
      · subst hp1
        simp only at hq
        rcases mem_setA hq with hq1 | hq1
        · cases hlk : lookupA (if hasA w.components t then w.components
              else setA w.components t ([] : List (Nat × δ))) t with
          | none => rw [hlk] at hq1; simp at hq1
          | some s =>
              rw [hlk] at hq1
              simp only [Option.getD_some] at hq1
              rcases hmem1 (t, s) (lookupA_mem hlk) with hs | hs
              · exact hw (t, s) hs q hq1
              · rw [Prod.mk.injEq] at hs
                rw [hs.2] at hq1
                simp at hq1
        · subst hq1
          exact ho
  | removeC id t =>
      intro p hp q hq
      simp only [applyOp, World.removeComponent] at hp ⊢
      cases hlk : lookupA w.components t with
      | none =>
          simp only [hlk] at hp ⊢
          exact hw p hp q hq
      | some s =>
          simp only [hlk] at hp ⊢
          rcases mem_setA hp with hp1 | hp1
          · exact hw p hp1 q hq
          · subst hp1
            simp only at hq
            exact hw (t, s) (lookupA_mem hlk) q (mem_delA hq).1

/-- The amended Claim C5: along any sequence of `createEntity`,
`destroyEntity`, `addComponent`, `removeComponent` calls in which every
`addComponent` targets an id currently in the entity set, key liveness
of the component mappings is preserved.  (As literally stated over
arbitrary call sequences, the claim fails — `addComponent` does not
check entity existence; see the counterexample.) -/
theorem component_keys_live_of_good_ops {δ : Type} (w : World δ) (ops : List (Op δ))
    (hw : KeysLive w) (hg : GoodSeq w ops) : KeysLive (applyOps w ops) := by
  induction hg with
  | nil w => exact hw
  | cons w o os ho _hg ih => exact ih (keysLive_applyOp hw ho)

/-- Claim C5 counterexample: a single `addComponent` on a never-created
id puts a key in a component mapping without the id being in the entity
set — the claimed invariant fails over arbitrary call sequences. -/
theorem component_keys_live_counterexample :
    ¬ KeysLive (applyOps (World.empty (δ := Unit)) [Op.addC 5 "x" ()]) := by
  intro h
  have := h ("x", [(5, ())]) (by decide) (5, ()) (by decide)
  simp [applyOps, applyOp, World.empty, World.addComponent] at this

/-- Claim C5 witness (amended theorem): create an entity, attach a
component to it, destroy it — key liveness holds throughout. -/
theorem component_keys_live_of_good_ops_witness :
    KeysLive (applyOps (World.empty (δ := Unit))
      [Op.create, Op.addC 1 "c" (), Op.destroy 1]) :=
  component_keys_live_of_good_ops (World.empty (δ := Unit))
    [Op.create, Op.addC 1 "c" (), Op.destroy 1]
    (by intro p hp q hq; simp [World.empty] at hp)
    (GoodSeq.cons _ _ _ (by trivial)
      (GoodSeq.cons _ _ _ (by simp [applyOp, World.createEntity, World.empty, addS, opOK])
        (GoodSeq.cons _ _ _ (by trivial) (GoodSeq.nil _))))

/-! ## Claim C8: serialize / deserialize round trip -/

theorem foldl_setA_of_nodup {κ α : Type} [DecidableEq κ] (l : List (κ × α)) :
    ∀ acc : List (κ × α), (l.map Prod.fst).Nodup →
      (∀ k ∈ l.map Prod.fst, k ∉ acc.map Prod.fst) →
      l.foldl (fun m p => setA m p.1 p.2) acc = acc ++ l := by
  induction l with
  | nil => intro acc _ _; simp
  | cons p rest ih =>
      intro acc hnd hdis
      obtain ⟨k, v⟩ := p
      simp only [List.map_cons, List.nodup_cons] at hnd
      have hkacc : k ∉ acc.map Prod.fst := hdis k (by simp)
      rw [List.foldl_cons]
      rw [setA_of_not_mem v hkacc]
      rw [ih (acc ++ [(k, v)]) hnd.2 ?_]
      · simp
      · intro k2 hk2
        simp only [List.map_append, List.mem_append] at *
        push_neg
        refine ⟨hdis k2 (by simp [hk2]), ?_⟩
        simp only [List.map_cons, List.map_nil, List.mem_singleton]
        intro heq
        exact hnd.1 (heq ▸ hk2)

theorem foldl_addS_of_nodup (l : List Nat) :
    ∀ acc : List Nat, l.Nodup → (∀ x ∈ l, x ∉ acc) →
      l.foldl addS acc = acc ++ l := by
  induction l with
  | nil => intro acc _ _; simp
  | cons x rest ih =>
      intro acc hnd hdis
      simp only [List.nodup_cons] at hnd
      rw [List.foldl_cons]
      have hx : addS acc x = acc ++ [x] := by
        unfold addS
        rw [if_neg (hdis x (by simp))]
      rw [hx, ih (acc ++ [x]) hnd.2 ?_]
      · simp
      · intro y hy
        simp only [List.mem_append, List.mem_singleton]
        push_neg
        exact ⟨hdis y (by simp [hy]), fun hexy => hnd.1 (hexy ▸ hy)⟩

theorem rebuildSet_of_nodup (l : List Nat) (h : l.Nodup) : rebuildSet l = l := by
  unfold rebuildSet
  simpa using foldl_addS_of_nodup l [] h (by simp)

theorem rebuildMapP_of_nodup (e : List (Prim × Prim)) (h : (e.map Prod.fst).Nodup) :
    rebuildMapP e = e := by
  unfold rebuildMapP
  simpa using foldl_setA_of_nodup e [] h (by simp)

theorem deserializeField_serializeField (f : FieldVal) (h : wfField f = true) :
    deserializeField (serializeField f) = f := by
  cases f with
  | prim p => rfl
  | arr l => rfl
  | fmap e =>
      simp only [wfField, decide_eq_true_eq] at h
      simp [serializeField, deserializeField, rebuildMapP_of_nodup e h]

theorem deserialize_serialize_data (d : CompData) (h : wfData d = true) :
    deserializeComponentData (serializeComponentData d) = d := by
  cases d with
  | prim p => rfl
  | record fs =>
      simp only [wfData, List.all_eq_true] at h
      simp only [serializeComponentData, deserializeComponentData, List.map_map]
      congr 1
      conv_rhs => rw [show fs = fs.map id from (List.map_id fs).symm]
      refine List.map_congr_left (fun f hf => ?_)
      simp only [Function.comp_apply, id_eq]
      rw [deserializeField_serializeField f.2 (h f hf)]

theorem rebuildStore_map_serialize (store : List (Nat × CompData))
    (hnd : (store.map Prod.fst).Nodup) (hwf : ∀ p ∈ store, wfData p.2 = true) :
    rebuildStore (store.map (fun p => (p.1, serializeComponentData p.2))) = store := by
  unfold rebuildStore
  rw [List.foldl_map]
  have := foldl_setA_of_nodup
    (store.map (fun p => (p.1, deserializeComponentData (serializeComponentData p.2)))) []
    (by simpa [List.map_map, Function.comp] using hnd) (by simp)
  simp only [List.nil_append] at this
  calc List.foldl
        (fun x y =>
          setA x ((fun p : Nat × CompData => (p.1, serializeComponentData p.2)) y).1
            (deserializeComponentData
              ((fun p : Nat × CompData => (p.1, serializeComponentData p.2)) y).2)) [] store
      = List.foldl (fun m p => setA m p.1 p.2) []
          (store.map (fun p => (p.1, deserializeComponentData (serializeComponentData p.2)))) := by
        rw [List.foldl_map]
    _ = store.map (fun p => (p.1, deserializeComponentData (serializeComponentData p.2))) := this
    _ = store := by
        conv_rhs => rw [show store = store.map id from (List.map_id store).symm]
        exact List.map_congr_left (fun p hp => by
          rw [deserialize_serialize_data p.2 (hwf p hp)]
          simp [id])

/-- Claim C8: for any world in the serialization domain (well formed:
duplicate-free `Set`/`Map` keys, as every JavaScript world is),
`deserialize` applied to `serialize`'s snapshot reconstructs the world
exactly — same `nextId`, same entity set, and for every component type
and entity the same component data, with `Map`-valued fields exported as
entry lists and restored as `Map`s with the same entries (regardless of
the prior state being overwritten). -/
theorem serialize_roundtrip (w w0 : WorldC) (hwf : wfWorld w = true) :
    World.deserialize w.serialize w0 = w := by
  obtain ⟨n, ents, comps⟩ := w
  simp only [wfWorld, Bool.and_eq_true, decide_eq_true_eq, List.all_eq_true] at hwf
  unfold World.serialize World.deserialize
  simp only [World.mk.injEq]
  refine ⟨trivial, rebuildSet_of_nodup ents hwf.1, ?_⟩
  rw [List.map_map]
  conv_rhs => rw [show comps = comps.map id from (List.map_id comps).symm]
  refine List.map_congr_left (fun ts hts => ?_)
  have hts2 := hwf.2 ts hts
  simp only [Bool.and_eq_true, decide_eq_true_eq, List.all_eq_true] at hts2
  simp only [Function.comp_apply, id]
  rw [rebuildStore_map_serialize ts.2 hts2.1 (fun p hp => hts2.2 p hp)]

/-- Claim C8 witness: a concrete world with a primitive component, a
record component, and a record component holding a `Map`-valued field,
round-tripped onto a dirty prior state. -/
theorem serialize_roundtrip_witness :
    World.deserialize
      (World.serialize
        (World.mk 3 [1, 2]
          [("tag", [(1, CompData.prim (Prim.str "hi"))]),
           ("gather", [(1, CompData.record
              [("amount", FieldVal.prim (Prim.num 4)),
               ("targets", FieldVal.arr [Prim.num 7, Prim.num 9]),
               ("cycle", FieldVal.fmap
                 [(Prim.str "wood", Prim.num 2), (Prim.str "stone", Prim.num 1)])]),
             (2, CompData.prim Prim.null)])]))
      (World.mk 9 [7] [("junk", [(7, CompData.prim (Prim.boolean true))])]) =
    World.mk 3 [1, 2]
      [("tag", [(1, CompData.prim (Prim.str "hi"))]),
       ("gather", [(1, CompData.record
          [("amount", FieldVal.prim (Prim.num 4)),
           ("targets", FieldVal.arr [Prim.num 7, Prim.num 9]),
           ("cycle", FieldVal.fmap
             [(Prim.str "wood", Prim.num 2), (Prim.str "stone", Prim.num 1)])]),
         (2, CompData.prim Prim.null)])] :=
  serialize_roundtrip _ _ (by decide)

/-! ## Cascade stage lemmas -/

theorem bind_ok {ε α β : Type} (a : α) (f : α → Except ε β) :
    (Except.ok a).bind f = f a := rfl

theorem bind_error_cases {ε α β : Type} (x : Except ε α) (f : α → Except ε β) (r : ε)
    (h : x.bind f = .error r) : x = .error r ∨ ∃ a, x = .ok a ∧ f a = .error r := by
  cases x with
  | error e => left; simpa [Except.bind] using h
  | ok a => right; exact ⟨a, rfl, by simpa [Except.bind] using h⟩

theorem chatStage_skip (c : AIConsts) (env : Env) (se : St)
    (h : se.1.chatTimer.getD 0 ≤ 0) : chatStage c env se = .ok se := by
  simp only [chatStage]
  rw [if_neg (by omega)]

theorem napStage_skip (c : AIConsts) (se : St)
    (h : se.1.napTimer.getD 0 ≤ 0) : napStage c se = .ok se := by
  simp only [napStage]
  rw [if_neg (by omega)]

theorem campfireStage_skip (c : AIConsts) (se : St)
    (h : se.1.campfireTimer.getD 0 ≤ 0) : campfireStage c se = .ok se := by
  simp only [campfireStage]
  rw [if_neg (by omega)]

theorem tavernStage_skip (c : AIConsts) (env : Env) (se : St)
    (h : se.1.tavernTimer.getD 0 ≤ 0) : tavernStage c env se = .ok se := by
  simp only [tavernStage]
  rw [if_neg (by omega)]

theorem sleepStage_skip (c : AIConsts) (env : Env) (se : St)
    (h : se.1.isSleeping.getD false = false) : sleepStage c env se = .ok se := by
  simp only [sleepStage]
  rw [if_neg (by simp [h])]

theorem starveStage_skip (c : AIConsts) (se : St)
    (h : c.starving ≤ se.1.food) : starveStage c se = .ok se := by
  simp only [starveStage]
  rw [if_neg (by omega)]

theorem transitStage_skip (se : St) (h : se.1.path = []) :
    transitStage se = .ok se := by
  simp only [transitStage]
  rw [if_neg (by simp [h])]

theorem transitStage_go (se : St) (h : se.1.path ≠ []) :
    transitStage se = .error ⟨{ se.1 with stuckTicks := some 0 }, se.2, .inTransit⟩ := by
  simp only [transitStage]
  rw [if_pos h]

theorem idleStage_eq (se : St) :
    idleStage se = .ok ({ se.1 with
      activity := "idle"
      insideBuildingId := none
      stuckTicks := some (se.1.stuckTicks.getD 0 + 1) },
      { se.2 with exitedBuilding := true }) := rfl

theorem stuckStage_skip (c : AIConsts) (worker : Option WorkerC) (se : St)
    (h : se.1.stuckTicks.getD 0 ≤ c.stuckThreshold) :
    stuckStage c worker se = .ok se := by
  simp only [stuckStage]
  rw [if_neg (by omega)]

theorem stuckStage_go (c : AIConsts) (worker : Option WorkerC) (se : St)
    (h : se.1.stuckTicks.getD 0 > c.stuckThreshold) :
    stuckStage c worker se = .error ⟨{ se.1 with stuckTicks := some 0 },
      { se.2 with
        forcedWander := true
        unassignedWorker :=
          (match worker with
           | some w => w.workplaceId.isSome && !w.manuallyAssigned
           | none => false) },
      .stuckRecovery⟩ := by
  simp only [stuckStage]
  rw [if_pos h]

theorem lonelinessStage_proj (c : AIConsts) (env : Env) (se : St) :
    ∃ s5, lonelinessStage c env se = .ok (s5, se.2) ∧ s5.food = se.1.food ∧
      s5.warmth = se.1.warmth ∧ s5.napTimer = se.1.napTimer ∧
      s5.campfireTimer = se.1.campfireTimer ∧ s5.tavernTimer = se.1.tavernTimer ∧
      s5.isSleeping = se.1.isSleeping ∧ s5.path = se.1.path ∧
      s5.stuckTicks = se.1.stuckTicks ∧ s5.isChild = se.1.isChild := by
  simp only [lonelinessStage]
  split
  · exact ⟨_, rfl, by simp, by simp, by simp, by simp, by simp, by simp, by simp, by simp,
      by simp⟩
  · exact ⟨se.1, rfl, rfl, rfl, rfl, rfl, rfl, rfl, rfl, rfl, rfl⟩

theorem abortCurrentMovement_eq (s : AgentState) :
    abortCurrentMovement s =
      { s with
        path := ([] : List (Nat × Nat))
        targetEntity := none
        moving := false
        stuckTicks := some 0 } := by
  unfold abortCurrentMovement
  by_cases h : s.path = []
  · rw [if_neg (by simp [h])]
    conv_rhs => rw [← h]
  · rw [if_pos h]

theorem coldStage_no_seek (c : AIConsts) (env : Env) (worker : Option WorkerC) (se : St)
    (h : env.seekWarmthFinds = false) :
    ∃ s8 e8, coldStage c env worker se = .ok (s8, e8) ∧
      s8.path = se.1.path ∧ s8.stuckTicks = se.1.stuckTicks ∧
      s8.isChild = se.1.isChild ∧ s8.food = se.1.food ∧
      s8.activity = se.1.activity := by
  simp only [coldStage, h]
  split
  · rw [if_neg (by simp)]
    split
    · exact ⟨_, _, rfl, by simp, by simp, by simp, by simp, by simp⟩
    · exact ⟨_, _, rfl, by simp, by simp, by simp, by simp, by simp⟩
  · exact ⟨_, _, rfl, by simp, by simp, by simp, by simp, by simp⟩

theorem bind_error {ε α β : Type} (e : ε) (f : α → Except ε β) :
    (Except.error e).bind f = .error e := rfl

theorem chatStage_pass (c : AIConsts) (env : Env) (se : St)
    (h : se.1.chatTimer.getD 0 ≤ c.interval) :
    ∃ s1, chatStage c env se = .ok (s1, se.2) ∧
      s1.food = se.1.food ∧ s1.warmth = se.1.warmth ∧
      s1.napTimer = se.1.napTimer ∧ s1.campfireTimer = se.1.campfireTimer ∧
      s1.tavernTimer = se.1.tavernTimer ∧ s1.isSleeping = se.1.isSleeping ∧
      s1.path = se.1.path := by
  simp only [chatStage]
  by_cases hc : se.1.chatTimer.getD 0 > 0
  · rw [if_pos hc, if_neg (by omega)]
    exact ⟨_, rfl, by simp, by simp, by simp, by simp, by simp, by simp, by simp⟩
  · rw [if_neg hc]
    exact ⟨se.1, rfl, rfl, rfl, rfl, rfl, rfl, rfl, rfl⟩

theorem napStage_pass (c : AIConsts) (se : St) (h : se.1.food < c.starving) :
    ∃ s2, napStage c se = .ok (s2, se.2) ∧
      s2.food = se.1.food ∧ s2.warmth = se.1.warmth ∧
      s2.napTimer.getD 0 ≤ 0 ∧ s2.campfireTimer = se.1.campfireTimer ∧
      s2.tavernTimer = se.1.tavernTimer ∧ s2.isSleeping = se.1.isSleeping ∧
      s2.path = se.1.path := by
  simp only [napStage]
  by_cases hn : se.1.napTimer.getD 0 > 0
  · rw [if_pos hn, if_pos (Or.inl h)]
    exact ⟨_, rfl, by simp, by simp, by simp, by simp, by simp, by simp, by simp⟩
  · rw [if_neg hn]
    exact ⟨se.1, rfl, rfl, rfl, by omega, rfl, rfl, rfl, rfl⟩

theorem campfireStage_pass (c : AIConsts) (se : St) (h : se.1.food < c.starving) :
    ∃ s3, campfireStage c se = .ok (s3, se.2) ∧
      s3.food = se.1.food ∧ s3.warmth = se.1.warmth ∧
      s3.napTimer = se.1.napTimer ∧ s3.campfireTimer.getD 0 ≤ 0 ∧
      s3.tavernTimer = se.1.tavernTimer ∧ s3.isSleeping = se.1.isSleeping ∧
      s3.path = se.1.path := by
  simp only [campfireStage]
  by_cases hn : se.1.campfireTimer.getD 0 > 0
  · rw [if_pos hn, if_pos (Or.inl h)]
    exact ⟨_, rfl, by simp, by simp, by simp, by simp, by simp, by simp, by simp⟩
  · rw [if_neg hn]
    exact ⟨se.1, rfl, rfl, rfl, rfl, by omega, rfl, rfl, rfl⟩

theorem tavernStage_pass (c : AIConsts) (env : Env) (se : St)
    (h : se.1.food < c.starving) :
    ∃ s4, tavernStage c env se = .ok (s4, se.2) ∧
      s4.food = se.1.food ∧ s4.warmth = se.1.warmth ∧
      s4.napTimer = se.1.napTimer ∧ s4.campfireTimer = se.1.campfireTimer ∧
      s4.tavernTimer.getD 0 ≤ 0 ∧ s4.isSleeping = se.1.isSleeping ∧
      s4.path = se.1.path := by
  simp only [tavernStage]
  by_cases hn : se.1.tavernTimer.getD 0 > 0
  · rw [if_pos hn, if_pos (Or.inl h)]
    exact ⟨_, rfl, by simp, by simp, by simp, by simp, by simp, by simp, by simp⟩
  · rw [if_neg hn]
    exact ⟨se.1, rfl, rfl, rfl, rfl, rfl, by omega, rfl, rfl⟩

theorem sleepStage_pass (c : AIConsts) (env : Env) (se : St)
    (h : se.1.food < c.starving) (b : Bool) (hb : se.1.isSleeping = some b) :
    ∃ s6 e6, sleepStage c env se = .ok (s6, e6) ∧
      s6.food = se.1.food ∧ s6.isSleeping = some false ∧
      s6.napTimer = se.1.napTimer ∧ s6.campfireTimer = se.1.campfireTimer ∧
      s6.tavernTimer = se.1.tavernTimer ∧ s6.path = se.1.path := by
  simp only [sleepStage]
  cases b with
  | false =>
      rw [if_neg (by simp [hb])]
      exact ⟨se.1, se.2, rfl, rfl, hb, rfl, rfl, rfl, rfl⟩
  | true =>
      rw [if_pos (by simp [hb])]
      by_cases he : se.1.energy.getD 0 ≥ 100 ∧ ¬env.isNight = true
      · rw [if_pos he]
        exact ⟨_, _, rfl, by simp, by simp, by simp, by simp, by simp, by simp⟩
      · rw [if_neg he, if_pos h]
        exact ⟨_, _, rfl, by simp, by simp, by simp, by simp, by simp, by simp⟩

theorem starveStage_go (c : AIConsts) (se : St) (h : se.1.food < c.starving) :
    starveStage c se =
      .error ⟨{ abortCurrentMovement { se.1 with activity := "starving" } with
        insideBuildingId := none },
        { se.2 with soughtFood := true, exitedBuilding := true }, .starving⟩ := by
  simp only [starveStage]
  rw [if_pos h]

theorem cascade_prefix_skip (c : AIConsts) (env : Env) (se : St)
    (h1 : se.1.chatTimer.getD 0 ≤ 0) (h2 : se.1.napTimer.getD 0 ≤ 0)
    (h3 : se.1.campfireTimer.getD 0 ≤ 0) (h4 : se.1.tavernTimer.getD 0 ≤ 0)
    (h5 : se.1.isSleeping.getD false = false) (h6 : c.starving ≤ se.1.food) :
    ∃ s7, ((((((chatStage c env se).bind (napStage c)).bind (campfireStage c)).bind
      (tavernStage c env)).bind (lonelinessStage c env)).bind (sleepStage c env)).bind
      (starveStage c) = .ok (s7, se.2) ∧
      s7.path = se.1.path ∧ s7.stuckTicks = se.1.stuckTicks ∧
      s7.isChild = se.1.isChild := by
  rw [chatStage_skip c env se h1, bind_ok, napStage_skip c se h2, bind_ok,
    campfireStage_skip c se h3, bind_ok, tavernStage_skip c env se h4, bind_ok]
  obtain ⟨s5, he5, hfood5, _, _, _, _, hsl5, hpath5, hstuck5, hchild5⟩ :=
    lonelinessStage_proj c env se
  rw [he5, bind_ok]
  rw [sleepStage_skip c env (s5, se.2)
    (show s5.isSleeping.getD false = false from by rw [hsl5]; exact h5), bind_ok]
  rw [starveStage_skip c (s5, se.2)
    (show c.starving ≤ s5.food from by rw [hfood5]; exact h6)]
  exact ⟨s5, rfl, hpath5, hstuck5, hchild5⟩

theorem cascade_prefix_skip_init (c : AIConsts) (env : Env) (raw : AgentState)
    (h1 : raw.chatTimer.getD 0 ≤ 0) (h2 : raw.napTimer.getD 0 ≤ 0)
    (h3 : raw.campfireTimer.getD 0 ≤ 0) (h4 : raw.tavernTimer.getD 0 ≤ 0)
    (h5 : raw.isSleeping.getD false = false) (h6 : c.starving ≤ raw.food) :
    ∃ s7, ((((((chatStage c env (initFields raw, Effects.start)).bind (napStage c)).bind
      (campfireStage c)).bind (tavernStage c env)).bind (lonelinessStage c env)).bind
      (sleepStage c env)).bind (starveStage c) = .ok (s7, Effects.start) ∧
      s7.path = raw.path ∧ s7.stuckTicks = some (raw.stuckTicks.getD 0) ∧
      s7.isChild = raw.isChild := by
  obtain ⟨s7, he7, hp, hs, hc2⟩ :=
    cascade_prefix_skip c env (initFields raw, Effects.start)
      (show (initFields raw).chatTimer.getD 0 ≤ 0 from by simpa [initFields] using h1)
      (show (initFields raw).napTimer.getD 0 ≤ 0 from by simpa [initFields] using h2)
      (show (initFields raw).campfireTimer.getD 0 ≤ 0 from by simpa [initFields] using h3)
      (show (initFields raw).tavernTimer.getD 0 ≤ 0 from by simpa [initFields] using h4)
      (show (initFields raw).isSleeping.getD false = false from by
        simpa [initFields] using h5)
      (show c.starving ≤ (initFields raw).food from by simpa [initFields] using h6)
  exact ⟨s7, he7, by simpa [initFields] using hp, by simpa [initFields] using hs,
    by simpa [initFields] using hc2⟩

/-- Claim C7: when the incremented stuck counter exceeds the threshold
at a throttled cycle (reached with no busy timer, not sleeping, not
starving, no warm shelter found, empty path), the engine that cycle
forces a wander, resets `stuckTicks` to exactly 0, and unassigns the
workplace iff one is assigned and `manuallyAssigned` is false — a
manually assigned workplace is never revoked here. -/
theorem stuck_recovery_unassigns_iff (c : AIConsts) (env : Env) (raw : AgentState)
    (worker : Option WorkerC) (h0 : env.snapped = false)
    (h1 : raw.chatTimer.getD 0 ≤ 0) (h2 : raw.napTimer.getD 0 ≤ 0)
    (h3 : raw.campfireTimer.getD 0 ≤ 0) (h4 : raw.tavernTimer.getD 0 ≤ 0)
    (h5 : raw.isSleeping.getD false = false) (h6 : c.starving ≤ raw.food)
    (h7 : env.seekWarmthFinds = false) (h8 : raw.path = [])
    (h9 : raw.stuckTicks.getD 0 + 1 > c.stuckThreshold) :
    (citizenStep c env raw worker).outcome = .stuckRecovery ∧
    (citizenStep c env raw worker).state.stuckTicks = some 0 ∧
    (citizenStep c env raw worker).eff.forcedWander = true ∧
    ((citizenStep c env raw worker).eff.unassignedWorker = true ↔
      ∃ wk, worker = some wk ∧ wk.workplaceId.isSome = true ∧
        wk.manuallyAssigned = false) := by
  unfold citizenStep
  rw [if_neg (by simp [h0])]
  obtain ⟨s7, he7, hp7, hs7, _⟩ := cascade_prefix_skip_init c env raw h1 h2 h3 h4 h5 h6
  rw [he7, bind_ok]
  obtain ⟨s8, e8, he8, hp8, hs8, _, _, _⟩ :=
    coldStage_no_seek c env worker (s7, Effects.start) h7
  have hp8' : s8.path = s7.path := hp8
  have hs8' : s8.stuckTicks = s7.stuckTicks := hs8
  rw [he8, bind_ok]
  rw [transitStage_skip (s8, e8) (show s8.path = [] from by rw [hp8', hp7]; exact h8),
    bind_ok]
  have hidle : idleStage (s8, e8) = .ok ({ s8 with
      activity := "idle"
      insideBuildingId := none
      stuckTicks := some (s8.stuckTicks.getD 0 + 1) }, { e8 with exitedBuilding := true }) :=
    rfl
  rw [hidle, bind_ok]
  rw [stuckStage_go c worker ({ s8 with
      activity := "idle"
      insideBuildingId := none
      stuckTicks := some (s8.stuckTicks.getD 0 + 1) }, { e8 with exitedBuilding := true })
    (show s8.stuckTicks.getD 0 + 1 > c.stuckThreshold from by
      rw [hs8', hs7]; simpa using h9)]
  refine ⟨rfl, rfl, rfl, ?_⟩
  cases worker with
  | none => simp
  | some wk => simp

/-- Claim C7 witness inputs: a worker stuck beyond the threshold. -/
def cexConsts : AIConsts :=
  ⟨5, 20, 20, 60, 10, 10, 1, 1, 1, 1000, -5⟩

/-- A cycle environment with no external interference. -/
def cexEnv : Env :=
  ⟨false, 0, false, false, false, false, false, none⟩

/-- An idle adult agent template. -/
def idleAgent : AgentState :=
  ⟨some 0, some 0, some 0, some 0, some false, false, none, "idle", none, none,
   50, 50, some 50, 50, some 0, some false, [], none, false, some 0⟩

/-- Claim C7 witness: a stuck auto-assigned worker is unassigned and
wander-forced with the counter reset. -/
theorem stuck_recovery_unassigns_iff_witness :
    (citizenStep cexConsts cexEnv { idleAgent with stuckTicks := some 15 }
      (some ⟨some 3, false⟩)).outcome = Outcome.stuckRecovery ∧
    (citizenStep cexConsts cexEnv { idleAgent with stuckTicks := some 15 }
      (some ⟨some 3, false⟩)).eff.unassignedWorker = true :=
  ⟨(stuck_recovery_unassigns_iff cexConsts cexEnv { idleAgent with stuckTicks := some 15 }
      (some ⟨some 3, false⟩) (by decide) (by decide) (by decide) (by decide) (by decide)
      (by decide) (by decide) (by decide) (by decide) (by decide)).1,
   (stuck_recovery_unassigns_iff cexConsts cexEnv { idleAgent with stuckTicks := some 15 }
      (some ⟨some 3, false⟩) (by decide) (by decide) (by decide) (by decide) (by decide)
      (by decide) (by decide) (by decide) (by decide) (by decide)).2.2.2.mpr
     ⟨⟨some 3, false⟩, rfl, rfl, rfl⟩⟩

theorem tailStage_state (worker : Option WorkerC) (se : St) :
    (tailStage worker se).state = se.1 := by
  unfold tailStage
  split
  · rfl
  · cases worker <;> rfl

theorem tailStage_outcome (worker : Option WorkerC) (se : St) :
    (tailStage worker se).outcome = .childAI ∨ (tailStage worker se).outcome = .noWorker ∨
    (tailStage worker se).outcome = .fallthrough := by
  unfold tailStage
  split
  · exact Or.inl rfl
  · cases worker with
    | none => exact Or.inr (Or.inl rfl)
    | some wk => exact Or.inr (Or.inr rfl)

/-- The amended Claim C6: in a throttled cycle not captured by a busy
timer, sleep, starvation or cold shelter: a non-empty path at the
in-transit check resets `stuckTicks` to exactly 0 (the cycle that
assigned the path did not reset it); an empty path increments
`stuckTicks` by exactly one on entering the decision phase (branches
inside that phase, outside this model's cutoff, may later reset it).
As literally stated the claim fails: cycles handled by a busy timer,
sleep, the fair, or working in place reset the counter to 0 even though
the path is empty — see the counterexample. -/
theorem stuck_counter_amended (c : AIConsts) (env : Env) (raw : AgentState)
    (worker : Option WorkerC) (h0 : env.snapped = false)
    (h1 : raw.chatTimer.getD 0 ≤ 0) (h2 : raw.napTimer.getD 0 ≤ 0)
    (h3 : raw.campfireTimer.getD 0 ≤ 0) (h4 : raw.tavernTimer.getD 0 ≤ 0)
    (h5 : raw.isSleeping.getD false = false) (h6 : c.starving ≤ raw.food)
    (h7 : env.seekWarmthFinds = false) :
    (raw.path ≠ [] →
      (citizenStep c env raw worker).outcome = .inTransit ∧
      (citizenStep c env raw worker).state.stuckTicks = some 0 ∧
      (citizenStep c env raw worker).state.path = raw.path) ∧
    (raw.path = [] → raw.stuckTicks.getD 0 + 1 ≤ c.stuckThreshold →
      (citizenStep c env raw worker).state.stuckTicks =
        some (raw.stuckTicks.getD 0 + 1) ∧
      ((citizenStep c env raw worker).outcome = .childAI ∨
       (citizenStep c env raw worker).outcome = .noWorker ∨
       (citizenStep c env raw worker).outcome = .fallthrough)) := by
  constructor
  · intro hpne
    unfold citizenStep
    rw [if_neg (by simp [h0])]
    obtain ⟨s7, he7, hp7, hs7, _⟩ := cascade_prefix_skip_init c env raw h1 h2 h3 h4 h5 h6
    rw [he7, bind_ok]
    obtain ⟨s8, e8, he8, hp8, hs8, _, _, _⟩ :=
      coldStage_no_seek c env worker (s7, Effects.start) h7
    have hp8' : s8.path = s7.path := hp8
    rw [he8, bind_ok]
    rw [transitStage_go (s8, e8) (show s8.path ≠ [] from by rw [hp8', hp7]; exact hpne)]
    rw [bind_error, bind_error]
    exact ⟨rfl, rfl, by show s8.path = raw.path; rw [hp8', hp7]⟩
  · intro hpe hle
    unfold citizenStep
    rw [if_neg (by simp [h0])]
    obtain ⟨s7, he7, hp7, hs7, hchild7⟩ :=
      cascade_prefix_skip_init c env raw h1 h2 h3 h4 h5 h6
    rw [he7, bind_ok]
    obtain ⟨s8, e8, he8, hp8, hs8, hchild8, _, _⟩ :=
      coldStage_no_seek c env worker (s7, Effects.start) h7
    have hp8' : s8.path = s7.path := hp8
    have hs8' : s8.stuckTicks = s7.stuckTicks := hs8
    have hchild8' : s8.isChild = s7.isChild := hchild8
    rw [he8, bind_ok]
    rw [transitStage_skip (s8, e8) (show s8.path = [] from by rw [hp8', hp7]; exact hpe),
      bind_ok]
    have hidle : idleStage (s8, e8) = .ok ({ s8 with
        activity := "idle"
        insideBuildingId := none
        stuckTicks := some (s8.stuckTicks.getD 0 + 1) },
        { e8 with exitedBuilding := true }) := rfl
    rw [hidle, bind_ok]
    rw [stuckStage_skip c worker ({ s8 with
        activity := "idle"
        insideBuildingId := none
        stuckTicks := some (s8.stuckTicks.getD 0 + 1) },
        { e8 with exitedBuilding := true })
      (show s8.stuckTicks.getD 0 + 1 ≤ c.stuckThreshold from by
        rw [hs8', hs7]; simpa using hle)]
    constructor
    · have ht := tailStage_state worker ({ s8 with
        activity := "idle"
        insideBuildingId := none
        stuckTicks := some (s8.stuckTicks.getD 0 + 1) },
        { e8 with exitedBuilding := true })
      show (tailStage worker ({ s8 with
        activity := "idle"
        insideBuildingId := none
        stuckTicks := some (s8.stuckTicks.getD 0 + 1) },
        { e8 with exitedBuilding := true })).state.stuckTicks =
        some (raw.stuckTicks.getD 0 + 1)
      rw [ht]
      show some (s8.stuckTicks.getD 0 + 1) = some (raw.stuckTicks.getD 0 + 1)
      rw [hs8', hs7]
      simp
    · exact tailStage_outcome worker _

/-- Claim C6 counterexample: a chatting citizen with an empty path has
its stuck counter reset from 5 to 0 in that throttled cycle, so the
counter does not strictly increase across consecutive empty-path
cycles. -/
theorem stuck_monotone_counterexample :
    ({ idleAgent with chatTimer := some 12, stuckTicks := some 5 } : AgentState).path =
      [] ∧
    ({ idleAgent with chatTimer := some 12, stuckTicks := some 5 } : AgentState).stuckTicks
      = some 5 ∧
    (citizenStep cexConsts cexEnv
      { idleAgent with chatTimer := some 12, stuckTicks := some 5 } none).state.path = [] ∧
    (citizenStep cexConsts cexEnv
      { idleAgent with chatTimer := some 12, stuckTicks := some 5 } none).state.stuckTicks
      = some 0 := by
  refine ⟨rfl, rfl, rfl, rfl⟩

/-- Claim C6 witness (amended theorem): an in-transit citizen's counter
resets to exactly 0. -/
theorem stuck_counter_amended_witness :
    (citizenStep cexConsts cexEnv { idleAgent with path := [(1, 1)] } none).outcome =
      Outcome.inTransit ∧
    (citizenStep cexConsts cexEnv
      { idleAgent with path := [(1, 1)] } none).state.stuckTicks = some 0 :=
  ⟨((stuck_counter_amended cexConsts cexEnv { idleAgent with path := [(1, 1)] } none
      (by decide) (by decide) (by decide) (by decide) (by decide) (by decide) (by decide)
      (by decide)).1 (by decide)).1,
   ((stuck_counter_amended cexConsts cexEnv { idleAgent with path := [(1, 1)] } none
      (by decide) (by decide) (by decide) (by decide) (by decide) (by decide) (by decide)
      (by decide)).1 (by decide)).2.1⟩

theorem cascade_prefix_starve (c : AIConsts) (env : Env) (raw : AgentState)
    (hf : raw.food < c.starving) (hc : raw.chatTimer.getD 0 ≤ c.interval) :
    ∃ s6 e6, (((((chatStage c env (initFields raw, Effects.start)).bind (napStage c)).bind
      (campfireStage c)).bind (tavernStage c env)).bind (lonelinessStage c env)).bind
      (sleepStage c env) = .ok (s6, e6) ∧
      s6.food = raw.food ∧ s6.isSleeping = some false ∧
      s6.napTimer.getD 0 ≤ 0 ∧ s6.campfireTimer.getD 0 ≤ 0 ∧
      s6.tavernTimer.getD 0 ≤ 0 ∧ s6.path = raw.path := by
  obtain ⟨s1, he1, f1, _, n1, cf1, t1, sl1, p1⟩ :=
    chatStage_pass c env (initFields raw, Effects.start)
      (show (initFields raw).chatTimer.getD 0 ≤ c.interval from by
        simpa [initFields] using hc)
  have he1' : chatStage c env (initFields raw, Effects.start) = .ok (s1, Effects.start) :=
    he1
  have f1' : s1.food = raw.food := by simpa [initFields] using f1
  have n1' : s1.napTimer = raw.napTimer := by simpa [initFields] using n1
  have cf1' : s1.campfireTimer = raw.campfireTimer := by simpa [initFields] using cf1
  have t1' : s1.tavernTimer = raw.tavernTimer := by simpa [initFields] using t1
  have sl1' : s1.isSleeping = some (raw.isSleeping.getD false) := by
    simpa [initFields] using sl1
  have p1' : s1.path = raw.path := by simpa [initFields] using p1
  rw [he1', bind_ok]
  obtain ⟨s2, he2, f2, _, n2, cf2, t2, sl2, p2⟩ :=
    napStage_pass c (s1, Effects.start) (show s1.food < c.starving from f1' ▸ hf)
  have he2' : napStage c (s1, Effects.start) = .ok (s2, Effects.start) := he2
  have f2' : s2.food = raw.food := by rw [show s2.food = s1.food from f2, f1']
  have n2' : s2.napTimer.getD 0 ≤ 0 := n2
  have cf2' : s2.campfireTimer = raw.campfireTimer := by
    rw [show s2.campfireTimer = s1.campfireTimer from cf2, cf1']
  have t2' : s2.tavernTimer = raw.tavernTimer := by
    rw [show s2.tavernTimer = s1.tavernTimer from t2, t1']
  have sl2' : s2.isSleeping = some (raw.isSleeping.getD false) := by
    rw [show s2.isSleeping = s1.isSleeping from sl2, sl1']
  have p2' : s2.path = raw.path := by rw [show s2.path = s1.path from p2, p1']
  rw [he2', bind_ok]
  obtain ⟨s3, he3, f3, _, n3, cf3, t3, sl3, p3⟩ :=
    campfireStage_pass c (s2, Effects.start) (show s2.food < c.starving from f2' ▸ hf)
  have he3' : campfireStage c (s2, Effects.start) = .ok (s3, Effects.start) := he3
  have f3' : s3.food = raw.food := by rw [show s3.food = s2.food from f3, f2']
  have n3' : s3.napTimer.getD 0 ≤ 0 := by
    rw [show s3.napTimer = s2.napTimer from n3]; exact n2'
  have cf3' : s3.campfireTimer.getD 0 ≤ 0 := cf3
  have t3' : s3.tavernTimer = raw.tavernTimer := by
    rw [show s3.tavernTimer = s2.tavernTimer from t3, t2']
  have sl3' : s3.isSleeping = some (raw.isSleeping.getD false) := by
    rw [show s3.isSleeping = s2.isSleeping from sl3, sl2']
  have p3' : s3.path = raw.path := by rw [show s3.path = s2.path from p3, p2']
  rw [he3', bind_ok]
  obtain ⟨s4, he4, f4, _, n4, cf4, t4, sl4, p4⟩ :=
    tavernStage_pass c env (s3, Effects.start) (show s3.food < c.starving from f3' ▸ hf)
  have he4' : tavernStage c env (s3, Effects.start) = .ok (s4, Effects.start) := he4
  have f4' : s4.food = raw.food := by rw [show s4.food = s3.food from f4, f3']
  have n4' : s4.napTimer.getD 0 ≤ 0 := by
    rw [show s4.napTimer = s3.napTimer from n4]; exact n3'
  have cf4' : s4.campfireTimer.getD 0 ≤ 0 := by
    rw [show s4.campfireTimer = s3.campfireTimer from cf4]; exact cf3'
  have t4' : s4.tavernTimer.getD 0 ≤ 0 := t4
  have sl4' : s4.isSleeping = some (raw.isSleeping.getD false) := by
    rw [show s4.isSleeping = s3.isSleeping from sl4, sl3']
  have p4' : s4.path = raw.path := by rw [show s4.path = s3.path from p4, p3']
  rw [he4', bind_ok]
  obtain ⟨s5, he5, f5, _, n5, cf5, t5, sl5, p5, _, _⟩ :=
    lonelinessStage_proj c env (s4, Effects.start)
  have he5' : lonelinessStage c env (s4, Effects.start) = .ok (s5, Effects.start) := he5
  have f5' : s5.food = raw.food := by rw [show s5.food = s4.food from f5, f4']
  have n5' : s5.napTimer.getD 0 ≤ 0 := by
    rw [show s5.napTimer = s4.napTimer from n5]; exact n4'
  have cf5' : s5.campfireTimer.getD 0 ≤ 0 := by
    rw [show s5.campfireTimer = s4.campfireTimer from cf5]; exact cf4'
  have t5' : s5.tavernTimer.getD 0 ≤ 0 := by
    rw [show s5.tavernTimer = s4.tavernTimer from t5]; exact t4'
  have sl5' : s5.isSleeping = some (raw.isSleeping.getD false) := by
    rw [show s5.isSleeping = s4.isSleeping from sl5, sl4']
  have p5' : s5.path = raw.path := by rw [show s5.path = s4.path from p5, p4']
  rw [he5', bind_ok]
  obtain ⟨s6, e6, he6, f6, sl6, n6, cf6, t6, p6⟩ :=
    sleepStage_pass c env (s5, Effects.start) (show s5.food < c.starving from f5' ▸ hf)
      (raw.isSleeping.getD false) sl5'
  rw [he6]
  refine ⟨s6, e6, rfl, ?_, sl6, ?_, ?_, ?_, ?_⟩
  · rw [show s6.food = s5.food from f6, f5']
  · rw [show s6.napTimer = s5.napTimer from n6]; exact n5'
  · rw [show s6.campfireTimer = s5.campfireTimer from cf6]; exact cf5'
  · rw [show s6.tavernTimer = s5.tavernTimer from t6]; exact t5'
  · rw [show s6.path = s5.path from p6, p5']

/-- The amended Claim C1: in a throttled cycle where food is below the
starving threshold and the chat timer does not exceed the throttle
interval, the engine that same cycle clears the nap, campfire and
tavern busy timers, wakes the citizen if asleep, sets the activity to
"starving", clears any in-progress path, exits any occupied building,
and initiates food seeking — regardless of warmth or cold sheltering.
As literally stated the claim fails for the chat timer: that branch has
no emergency check, so a starving citizen whose chat timer stays
positive after the decrement keeps chatting that cycle — see the
counterexample. -/
theorem starving_interrupts_amended (c : AIConsts) (env : Env) (raw : AgentState)
    (worker : Option WorkerC) (h0 : env.snapped = false)
    (hf : raw.food < c.starving) (hc : raw.chatTimer.getD 0 ≤ c.interval) :
    (citizenStep c env raw worker).outcome = .starving ∧
    (citizenStep c env raw worker).state.activity = "starving" ∧
    (citizenStep c env raw worker).state.napTimer.getD 0 ≤ 0 ∧
    (citizenStep c env raw worker).state.campfireTimer.getD 0 ≤ 0 ∧
    (citizenStep c env raw worker).state.tavernTimer.getD 0 ≤ 0 ∧
    (citizenStep c env raw worker).state.isSleeping = some false ∧
    (citizenStep c env raw worker).state.path = [] ∧
    (citizenStep c env raw worker).state.stuckTicks = some 0 ∧
    (citizenStep c env raw worker).state.insideBuildingId = none ∧
    (citizenStep c env raw worker).eff.soughtFood = true ∧
    (citizenStep c env raw worker).eff.exitedBuilding = true := by
  unfold citizenStep
  rw [if_neg (by simp [h0])]
  obtain ⟨s6, e6, he6, f6, sl6, n6, cf6, t6, p6⟩ :=
    cascade_prefix_starve c env raw hf hc
  rw [he6, bind_ok]
  rw [starveStage_go c (s6, e6) (show s6.food < c.starving from f6 ▸ hf)]
  rw [bind_error, bind_error, bind_error, bind_error]
  rw [abortCurrentMovement_eq]
  refine ⟨rfl, rfl, ?_, ?_, ?_, ?_, rfl, rfl, rfl, rfl, rfl⟩
  · show s6.napTimer.getD 0 ≤ 0
    exact n6
  · show s6.campfireTimer.getD 0 ≤ 0
    exact cf6
  · show s6.tavernTimer.getD 0 ≤ 0
    exact t6
  · show s6.isSleeping = some false
    exact sl6

/-- Claim C1 counterexample: a starving citizen whose chat timer
exceeds the throttle interval keeps chatting this cycle — the chat
timer is decremented, not force-cleared, the activity is not set to
"starving", and no food seeking is initiated. -/
theorem starving_chat_counterexample :
    ({ idleAgent with chatTimer := some 12, food := 10 } : AgentState).food <
      cexConsts.starving ∧
    (citizenStep cexConsts cexEnv
      { idleAgent with chatTimer := some 12, food := 10 } none).state.activity =
      "chatting" ∧
    (citizenStep cexConsts cexEnv
      { idleAgent with chatTimer := some 12, food := 10 } none).state.chatTimer =
      some 7 ∧
    (citizenStep cexConsts cexEnv
      { idleAgent with chatTimer := some 12, food := 10 } none).eff.soughtFood =
      false := by
  refine ⟨by decide, rfl, rfl, rfl⟩

/-- Claim C1 witness (amended theorem): a sleeping, cold-sheltering
citizen with nap, campfire and tavern timers running and food below the
starving threshold ends the cycle starving, with the timers cleared and
food seeking initiated. -/
theorem starving_interrupts_amended_witness :
    (citizenStep cexConsts cexEnv { idleAgent with
      food := 10
      napTimer := some 9
      campfireTimer := some 9
      tavernTimer := some 9
      isSleeping := some true
      isColdSheltering := some true
      warmth := 5
      path := [(2, 2)]
      insideBuildingId := some 6 } (some ⟨some 3, true⟩)).outcome = Outcome.starving ∧
    (citizenStep cexConsts cexEnv { idleAgent with
      food := 10
      napTimer := some 9
      campfireTimer := some 9
      tavernTimer := some 9
      isSleeping := some true
      isColdSheltering := some true
      warmth := 5
      path := [(2, 2)]
      insideBuildingId := some 6 } (some ⟨some 3, true⟩)).eff.soughtFood = true :=
  ⟨(starving_interrupts_amended cexConsts cexEnv { idleAgent with
      food := 10
      napTimer := some 9
      campfireTimer := some 9
      tavernTimer := some 9
      isSleeping := some true
      isColdSheltering := some true
      warmth := 5
      path := [(2, 2)]
      insideBuildingId := some 6 } (some ⟨some 3, true⟩) (by decide) (by decide)
      (by decide)).1,
   (starving_interrupts_amended cexConsts cexEnv { idleAgent with
      food := 10
      napTimer := some 9
      campfireTimer := some 9
      tavernTimer := some 9
      isSleeping := some true
      isColdSheltering := some true
      warmth := 5
      path := [(2, 2)]
      insideBuildingId := some 6 } (some ⟨some 3, true⟩) (by decide) (by decide)
      (by decide)).2.2.2.2.2.2.2.2.2.1⟩

/-- Claim C10: when the lazily initialized fields (`stuckTicks`,
`isSleeping`, `energy`, `lastSocialTick`, `chatTimer`) enter a throttled
cycle undefined, the engine initializes them to 0, false, 100, 0, 0 and
processes the entity exactly as if the fields already held those
values — the cycle proceeds rather than skipping the entity.  (Entity
selection itself — skipping entities missing one of the four required
components — is the query membership property.) -/
theorem lazy_field_initialization (c : AIConsts) (env : Env) (raw : AgentState)
    (worker : Option WorkerC) (h0 : env.snapped = false)
    (h1 : raw.stuckTicks = none) (h2 : raw.isSleeping = none) (h3 : raw.energy = none)
    (h4 : raw.lastSocialTick = none) (h5 : raw.chatTimer = none) :
    initFields raw = { raw with
      stuckTicks := some 0
      isSleeping := some false
      energy := some 100
      lastSocialTick := some 0
      chatTimer := some 0 } ∧
    citizenStep c env raw worker = citizenStep c env { raw with
      stuckTicks := some 0
      isSleeping := some false
      energy := some 100
      lastSocialTick := some 0
      chatTimer := some 0 } worker := by
  have hinit : initFields raw = { raw with
      stuckTicks := some 0
      isSleeping := some false
      energy := some 100
      lastSocialTick := some 0
      chatTimer := some 0 } := by
    simp [initFields, h1, h2, h3, h4, h5]
  refine ⟨hinit, ?_⟩
  unfold citizenStep
  rw [if_neg (by simp [h0]), if_neg (by simp [h0])]
  rw [hinit]
  rfl

/-- Claim C10 witness: the template agent with the five lazy fields
undefined is initialized to the documented defaults. -/
theorem lazy_field_initialization_witness :
    initFields { idleAgent with
      stuckTicks := none
      isSleeping := none
      energy := none
      lastSocialTick := none
      chatTimer := none } =
    { { idleAgent with
        stuckTicks := none
        isSleeping := none
        energy := none
        lastSocialTick := none
        chatTimer := none } with
      stuckTicks := some 0
      isSleeping := some false
      energy := some 100
      lastSocialTick := some 0
      chatTimer := some 0 } :=
  (lazy_field_initialization cexConsts cexEnv { idleAgent with
      stuckTicks := none
      isSleeping := none
      energy := none
      lastSocialTick := none
      chatTimer := none } none (by decide) rfl rfl rfl rfl rfl).1

end Banished
